import Mathlib

/-!
Shallow embedding of `backup.py` (WordPress Backup Tool for WP Engine).

The program is a single sequential orchestrator: it validates environment
variables, opens an SSH session (optionally writing key material to a
temporary file), runs a remote `zip` command, downloads the archive over
SFTP, best-effort deletes the remote copy, and always closes the channels
in a `finally` block.  We model one process invocation as a function of the
environment (`Env`) and of the outcomes the outside world supplies
(`World`): the result is the ordered trace of observable events (log lines,
network operations, file operations) together with the process exit code.
-/

namespace WPBackup

/-- Observable events of one run, in program order. -/
inductive Event where
  | logInfo (msg : String)
  | logWarning (msg : String)
  | logError (msg : String)
  | tempFileCreate (contents : String)
  | tempFileDelete
  | connectAttempt (host user : String) (usedKey : Bool)
  | openSftp
  | execCommand (cmd : String)
  | sftpGet (remote localPath : String)
  | getFileSize (path : String)
  | sftpRemove (path : String)
  | closeSftp
  | closeSsh
deriving Repr, DecidableEq

/-- Events that touch the network (SSH/SFTP traffic). -/
def Event.isNetwork : Event → Bool
  | .connectAttempt _ _ _ => true
  | .openSftp => true
  | .execCommand _ => true
  | .sftpGet _ _ => true
  | .sftpRemove _ => true
  | _ => false

/-- The process environment: `os.getenv` yields `none` when a variable is
unset; an empty string is a set-but-empty value. -/
structure Env where
  ssh_user : Option String
  ssh_host : Option String
  ssh_path : Option String
  ssh_mysql_path : Option String
  ssh_public_key : Option String
deriving Repr, DecidableEq

/-- Python truthiness of an `os.getenv` result: `None` and `""` are falsy. -/
def truthy : Option String → Bool
  | none => false
  | some s => !(s == "")

/-- `required_vars` from `_validate_env_vars`. -/
def required_vars : List String := ["SSH_USER", "SSH_HOST", "SSH_PATH"]

/-- `getattr(self, var.lower())` for the three required variables. -/
def getattrLower (e : Env) (v : String) : Option String :=
  if v = "SSH_USER" then e.ssh_user
  else if v = "SSH_HOST" then e.ssh_host
  else if v = "SSH_PATH" then e.ssh_path
  else none

/-- `missing_vars = [var for var in required_vars if not getattr(self, var.lower())]`. -/
def missing_vars (e : Env) : List String :=
  required_vars.filter (fun v => !truthy (getattrLower e v))

/-- Python `repr` of a list of strings, as interpolated by
`f"Missing required environment variables: {missing_vars}"`. -/
def pyListRepr (xs : List String) : String :=
  "[" ++ String.intercalate ", " (xs.map (fun s => "\x27" ++ s ++ "\x27")) ++ "]"

/-- Outcomes supplied by the outside world for the single run: the current
date, the home directory, and the success/failure of each external call
(with the exception texts the failing calls would carry). -/
structure World where
  today : String
  homeDir : String
  keyParseOk : Bool
  connectOk : Bool
  sftpOpenOk : Bool
  execTransportOk : Bool
  execExitStatus : Nat
  execStderr : String
  downloadOk : Bool
  fileSize : Nat
  cleanupOk : Bool
  parseErr : String
  connectErr : String
  sftpOpenErr : String
  execErr : String
  downloadErr : String
  cleanupErr : String
deriving Repr, DecidableEq

/-- Whether `ssh_client` / `sftp_client` are non-`None` (so the `finally`
teardown has something to close). -/
structure ConnState where
  sshOpened : Bool
  sftpOpened : Bool
deriving Repr, DecidableEq

/-- A step either returns a value or has called `sys.exit(code)`. -/
inductive StepOutcome (α : Type) where
  | ok (val : α)
  | exit (code : Nat)
deriving Repr, DecidableEq

/-- `self.backup_filename = f"{self.backup_date}.wp-content.zip"`. -/
def backup_filename (backup_date : String) : String :=
  backup_date ++ ".wp-content.zip"

/-- Sixteen spaces: the indentation kept by the triple-quoted f-string. -/
def sp16 : String := "                "

/-- Twelve spaces: the indentation before the closing quotes. -/
def sp12 : String := "            "

/-- The remote `zip_command` f-string of `_create_remote_backup`, with the
backslash-newline continuations elided as Python does. -/
def zip_command (ssh_path filename : String) : String :=
  "\n" ++ sp16 ++ "cd " ++ ssh_path ++ " && " ++
  sp16 ++ "zip -r " ++ filename ++ " " ++
  sp16 ++ "wp-content/uploads/ " ++
  sp16 ++ "wp-content/themes/ " ++
  sp16 ++ "wp-content/plugins/ " ++
  sp16 ++ "wp-config.php " ++
  sp16 ++ "-x \"wp-content/cache/*\" \"wp-content/tmp/*\" " ++
  sp16 ++ "|| echo \"Some files may have been skipped due to permissions\"\n" ++
  sp12

/-- `file_size / (1024*1024)` in hundredths of a MB, rounded half-to-even
(the rounding `f"{x:.2f}"` performs; exact since the divisor is a power of
two). -/
def mbHundredths (bytes : Nat) : Nat :=
  let num := bytes * 100
  let den := 1024 * 1024
  let q := num / den
  let r := num % den
  if den < 2 * r then q + 1
  else if 2 * r < den then q
  else if q % 2 = 0 then q else q + 1

/-- The text `f"{file_size / (1024*1024):.2f}"` produces. -/
def formatMB (bytes : Nat) : String :=
  let h := mbHundredths bytes
  toString (h / 100) ++ "." ++
    (if h % 100 < 10 then "0" else "") ++ toString (h % 100)

/-- `_setup_ssh_connection`: `ssh_client` is created unconditionally; with
`SSH_PUBLIC_KEY` set the key is written to a temporary file whose deletion
sits in a `finally` around parse + connect; then `open_sftp`.  Any exception
is caught, logged, and turns into `sys.exit(1)`. -/
def setup_ssh_connection (host user : String) (publicKey : Option String)
    (w : World) : List Event × ConnState × StepOutcome Unit :=
  let afterConnect (ev : List Event) : List Event × ConnState × StepOutcome Unit :=
    let ev := ev ++ [Event.openSftp]
    if w.sftpOpenOk then
      (ev ++ [Event.logInfo ("SSH connection established to " ++ host)],
       ⟨true, true⟩, .ok ())
    else
      (ev ++ [Event.logError ("Failed to establish SSH connection: " ++ w.sftpOpenErr)],
       ⟨true, false⟩, .exit 1)
  if truthy publicKey then
    let ev0 := [Event.tempFileCreate (publicKey.getD "")]
    if w.keyParseOk then
      let ev1 := ev0 ++ [Event.connectAttempt host user true]
      if w.connectOk then
        afterConnect (ev1 ++ [Event.tempFileDelete])
      else
        (ev1 ++ [Event.tempFileDelete,
                 Event.logError ("Failed to establish SSH connection: " ++ w.connectErr)],
         ⟨true, false⟩, .exit 1)
    else
      (ev0 ++ [Event.tempFileDelete,
               Event.logError ("Failed to establish SSH connection: " ++ w.parseErr)],
       ⟨true, false⟩, .exit 1)
  else
    let ev1 := [Event.connectAttempt host user false]
    if w.connectOk then
      afterConnect ev1
    else
      (ev1 ++ [Event.logError ("Failed to establish SSH connection: " ++ w.connectErr)],
       ⟨true, false⟩, .exit 1)

/-- `_create_remote_backup`: computes `remote_backup_path`, runs the zip
command, treats non-zero exit status as a warning only, and returns the
path; a transport-level exception logs and exits 1. -/
def create_remote_backup (ssh_path filename : String) (w : World) :
    List Event × StepOutcome String :=
  let remote_backup_path := ssh_path ++ "/" ++ filename
  let ev0 := [Event.logInfo "Creating backup on remote server...",
              Event.execCommand (zip_command ssh_path filename)]
  if w.execTransportOk then
    if w.execExitStatus = 0 then
      (ev0 ++ [Event.logInfo "Backup created successfully on remote server"],
       .ok remote_backup_path)
    else
      (ev0 ++ [Event.logWarning ("Backup completed with warnings: " ++ w.execStderr)],
       .ok remote_backup_path)
  else
    (ev0 ++ [Event.logError ("Failed to create remote backup: " ++ w.execErr)],
     .exit 1)

/-- `_download_backup`: `local_backup_path = os.path.expanduser(f"~/{fn}")`,
SFTP get, then size logging on success; any failure logs and exits 1. -/
def download_backup (homeDir filename remote_backup_path : String) (w : World) :
    List Event × StepOutcome String :=
  let local_backup_path := homeDir ++ "/" ++ filename
  let ev0 := [Event.logInfo ("Downloading backup to " ++ local_backup_path ++ "..."),
              Event.sftpGet remote_backup_path local_backup_path]
  if w.downloadOk then
    (ev0 ++ [Event.getFileSize local_backup_path,
             Event.logInfo ("Backup downloaded successfully. Size: " ++
                            formatMB w.fileSize ++ " MB")],
     .ok local_backup_path)
  else
    (ev0 ++ [Event.logError ("Failed to download backup: " ++ w.downloadErr)],
     .exit 1)

/-- `_cleanup_remote_backup`: best-effort SFTP remove; failure is a warning. -/
def cleanup_remote_backup (remote_backup_path : String) (w : World) : List Event :=
  if w.cleanupOk then
    [Event.sftpRemove remote_backup_path, Event.logInfo "Remote backup file cleaned up"]
  else
    [Event.sftpRemove remote_backup_path,
     Event.logWarning ("Failed to clean up remote backup: " ++ w.cleanupErr)]

/-- `_close_connections`: close `sftp_client` if set, then `ssh_client` if
set, then log. -/
def close_connections (st : ConnState) : List Event :=
  (if st.sftpOpened then [Event.closeSftp] else []) ++
  (if st.sshOpened then [Event.closeSsh] else []) ++
  [Event.logInfo "Connections closed"]

/-- The `try` body of `create_backup` (everything before the `finally`):
returns the events, the exit code the propagating `sys.exit` carries
(`0` for normal completion), and the connection state the `finally` will
see. -/
def create_backup_body (host user ssh_path : String) (publicKey : Option String)
    (w : World) : List Event × Nat × ConnState :=
  let filename := backup_filename w.today
  let ev0 := [Event.logInfo "Starting WordPress backup process..."]
  let s := setup_ssh_connection host user publicKey w
  match s.2.2 with
  | .exit c => (ev0 ++ s.1, c, s.2.1)
  | .ok _ =>
    let cr := create_remote_backup ssh_path filename w
    match cr.2 with
    | .exit c => (ev0 ++ s.1 ++ cr.1, c, s.2.1)
    | .ok remote_backup_path =>
      let d := download_backup w.homeDir filename remote_backup_path w
      match d.2 with
      | .exit c => (ev0 ++ s.1 ++ cr.1 ++ d.1, c, s.2.1)
      | .ok local_backup_path =>
        let evR := cleanup_remote_backup remote_backup_path w
        (ev0 ++ s.1 ++ cr.1 ++ d.1 ++ evR ++
           [Event.logInfo ("Backup process completed successfully! File saved to: " ++
                           local_backup_path)],
         0, s.2.1)

/-- `create_backup`: the body plus the `finally` teardown, which runs on
normal completion and when a `sys.exit` propagates. -/
def create_backup (host user ssh_path : String) (publicKey : Option String)
    (w : World) : List Event × Nat :=
  let r := create_backup_body host user ssh_path publicKey w
  (r.1 ++ close_connections r.2.2, r.2.1)

/-- The outcome of one process invocation. -/
structure RunResult where
  trace : List Event
  exitCode : Nat
deriving Repr, DecidableEq

/-- `main`: construct `WordPressBackup` (env reads + validation inside
`__init__`, exiting 1 with the full list of missing variables before any
network activity) and run `create_backup`. -/
def main (e : Env) (w : World) : RunResult :=
  let miss := missing_vars e
  if miss.isEmpty then
    let r := create_backup (e.ssh_host.getD "") (e.ssh_user.getD "")
        (e.ssh_path.getD "") e.ssh_public_key w
    ⟨Event.logInfo "Environment variables validated successfully" :: r.1, r.2⟩
  else
    ⟨[Event.logError ("Missing required environment variables: " ++ pyListRepr miss)], 1⟩

/-- Whether the temporary key file exists, folded over a trace from an
initial existence flag. -/
def tempKeyAlive : List Event → Bool → Bool
  | [], b => b
  | Event.tempFileCreate _ :: rest, _ => tempKeyAlive rest true
  | Event.tempFileDelete :: rest, _ => tempKeyAlive rest false
  | _ :: rest, b => tempKeyAlive rest b

/-- The condition under which `_setup_ssh_connection` succeeds. -/
def setupOk (publicKey : Option String) (w : World) : Bool :=
  (if truthy publicKey then w.keyParseOk && w.connectOk else w.connectOk) && w.sftpOpenOk

/-! ### Helper lemmas -/

lemma setup_sshOpened (host user : String) (pk : Option String) (w : World) :
    (setup_ssh_connection host user pk w).2.1.sshOpened = true := by
  by_cases hk : truthy pk <;> by_cases hp : w.keyParseOk <;>
    by_cases hc : w.connectOk <;> by_cases hs : w.sftpOpenOk <;>
      simp [setup_ssh_connection, hk, hp, hc, hs]

lemma body_state (host user ssh_path : String) (pk : Option String) (w : World) :
    (create_backup_body host user ssh_path pk w).2.2 =
      (setup_ssh_connection host user pk w).2.1 := by
  unfold create_backup_body
  dsimp only
  split
  · rfl
  · split
    · rfl
    · split <;> rfl

lemma create_backup_trace (host user ssh_path : String) (pk : Option String) (w : World) :
    create_backup host user ssh_path pk w =
      ((create_backup_body host user ssh_path pk w).1 ++
        close_connections (create_backup_body host user ssh_path pk w).2.2,
       (create_backup_body host user ssh_path pk w).2.1) := rfl

lemma setup_ok_trace (host user : String) (pk : Option String) (w : World)
    (h : setupOk pk w = true) :
    setup_ssh_connection host user pk w =
      ((if truthy pk then
          [Event.tempFileCreate (pk.getD ""), Event.connectAttempt host user true,
           Event.tempFileDelete]
        else [Event.connectAttempt host user false]) ++
        [Event.openSftp, Event.logInfo ("SSH connection established to " ++ host)],
       ⟨true, true⟩, .ok ()) := by
  by_cases hk : truthy pk
  · simp only [setupOk, hk, if_true, Bool.and_eq_true] at h
    simp [setup_ssh_connection, hk, h.1.1, h.1.2, h.2]
  · simp [setupOk, hk, Bool.and_eq_true] at h
    simp [setup_ssh_connection, hk, h.1, h.2]

/-! ### Concrete fixtures for witnesses -/

/-- An environment with all mandatory variables set (the spec's example). -/
def envOK : Env :=
  ⟨some "test", some "test.example.com", some "/var/www/html", none, none⟩

/-- An environment missing `SSH_USER` and `SSH_PATH`. -/
def envMissing : Env := ⟨none, some "test.example.com", some "", none, none⟩

/-- A world where every external call succeeds. -/
def worldOK : World :=
  ⟨"2024-01-15", "/home/user", true, true, true, true, 0, "", true, 1048576, true,
   "pe", "ce", "se", "ee", "de", "cle"⟩

/-! ### Claims -/

/-- C1: whenever at least one of SSH_USER, SSH_HOST, SSH_PATH is unset or
empty, the run logs the complete list of missing variable names (every
variable whose value is falsy appears in the logged list), exits with a
non-zero status, and performs no network activity at all. -/
theorem c1_missing_vars_all_reported_and_exit (e : Env) (w : World)
    (h : truthy e.ssh_user = false ∨ truthy e.ssh_host = false ∨
         truthy e.ssh_path = false) :
    (main e w).exitCode = 1 ∧
    (main e w).trace =
      [Event.logError ("Missing required environment variables: " ++
        pyListRepr (missing_vars e))] ∧
    (∀ v, v ∈ required_vars → truthy (getattrLower e v) = false →
      v ∈ missing_vars e) ∧
    (∀ ev ∈ (main e w).trace, ev.isNetwork = false) := by
  have hne : (missing_vars e).isEmpty = false := by
    by_cases h1 : truthy e.ssh_user <;> by_cases h2 : truthy e.ssh_host <;>
      by_cases h3 : truthy e.ssh_path <;>
        simp [missing_vars, required_vars, getattrLower, h1, h2, h3] at h ⊢
  refine ⟨by simp [main, hne], by simp [main, hne], ?_, ?_⟩
  · intro v hv hfv
    simp only [missing_vars, List.mem_filter]
    exact ⟨hv, by simp [hfv]⟩
  · intro ev hev
    simp only [main, hne, Bool.false_eq_true, if_false, List.mem_singleton] at hev
    simp [hev, Event.isNetwork]

/-- C1 witness: with SSH_USER unset and SSH_PATH empty, the run exits 1,
logs both missing names, and touches the network nowhere. -/
theorem c1_missing_vars_witness :
    (truthy envMissing.ssh_user = false ∨ truthy envMissing.ssh_host = false ∨
      truthy envMissing.ssh_path = false) ∧
    ((main envMissing worldOK).exitCode = 1 ∧
     (main envMissing worldOK).trace =
       [Event.logError ("Missing required environment variables: " ++
         pyListRepr (missing_vars envMissing))] ∧
     (∀ v, v ∈ required_vars → truthy (getattrLower envMissing v) = false →
       v ∈ missing_vars envMissing) ∧
     (∀ ev ∈ (main envMissing worldOK).trace, ev.isNetwork = false)) :=
  ⟨Or.inl (by decide),
   c1_missing_vars_all_reported_and_exit envMissing worldOK (Or.inl (by decide))⟩

/-- C2: whenever SSH_PUBLIC_KEY is set (and the run gets past validation),
the key material is written to a temporary file, that file is deleted on
every outcome of the parse/connect step, and the file no longer exists at
the end of the run. -/
theorem c2_temp_key_file_released (e : Env) (w : World)
    (hm : missing_vars e = []) (hk : truthy e.ssh_public_key = true) :
    Event.tempFileCreate (e.ssh_public_key.getD "") ∈ (main e w).trace ∧
    Event.tempFileDelete ∈ (main e w).trace ∧
    tempKeyAlive (main e w).trace false = false := by
  by_cases hp : w.keyParseOk <;> by_cases hc : w.connectOk <;>
    by_cases hs : w.sftpOpenOk <;> by_cases ht : w.execTransportOk <;>
      by_cases hz : w.execExitStatus = 0 <;> by_cases hd : w.downloadOk <;>
        by_cases hcl : w.cleanupOk <;>
          simp [main, hm, create_backup, create_backup_body, setup_ssh_connection,
                create_remote_backup, download_backup, cleanup_remote_backup,
                close_connections, tempKeyAlive, hk, hp, hc, hs, ht, hz, hd, hcl]

/-- C2 witness: a run with SSH_PUBLIC_KEY set and a failing connect still
creates and deletes the temporary key file, leaving it gone at the end. -/
theorem c2_temp_key_file_witness :
    (missing_vars ⟨some "u", some "h", some "/p", none, some "KEY"⟩ = [] ∧
     truthy (Env.ssh_public_key ⟨some "u", some "h", some "/p", none, some "KEY"⟩) = true) ∧
    (Event.tempFileCreate ((Env.ssh_public_key
        ⟨some "u", some "h", some "/p", none, some "KEY"⟩).getD "")
        ∈ (main ⟨some "u", some "h", some "/p", none, some "KEY"⟩
            { worldOK with connectOk := false }).trace ∧
     Event.tempFileDelete
        ∈ (main ⟨some "u", some "h", some "/p", none, some "KEY"⟩
            { worldOK with connectOk := false }).trace ∧
     tempKeyAlive (main ⟨some "u", some "h", some "/p", none, some "KEY"⟩
            { worldOK with connectOk := false }).trace false = false) :=
  ⟨⟨by decide, by decide⟩,
   c2_temp_key_file_released ⟨some "u", some "h", some "/p", none, some "KEY"⟩
     { worldOK with connectOk := false } (by decide) (by decide)⟩

/-- C3: when the remote zip command finishes with a non-zero exit status but
no transport-level exception, the run logs a warning carrying the captured
stderr, still reaches the retrieval step (an SFTP get of the computed remote
path), and — if the download then succeeds — exits 0. -/
theorem c3_nonzero_archive_status_not_fatal (e : Env) (w : World)
    (hm : missing_vars e = []) (hs : setupOk e.ssh_public_key w = true)
    (ht : w.execTransportOk = true) (hz : w.execExitStatus ≠ 0) :
    Event.logWarning ("Backup completed with warnings: " ++ w.execStderr)
      ∈ (main e w).trace ∧
    Event.sftpGet (e.ssh_path.getD "" ++ "/" ++ backup_filename w.today)
      (w.homeDir ++ "/" ++ backup_filename w.today) ∈ (main e w).trace ∧
    (w.downloadOk = true → (main e w).exitCode = 0) := by
  have hset := setup_ok_trace (e.ssh_host.getD "") (e.ssh_user.getD "")
    e.ssh_public_key w hs
  by_cases hk : truthy e.ssh_public_key <;> by_cases hd : w.downloadOk <;>
    by_cases hcl : w.cleanupOk <;>
      simp [main, hm, create_backup, create_backup_body, hset, create_remote_backup,
            download_backup, cleanup_remote_backup, close_connections, backup_filename,
            ht, hz, hk, hd, hcl]

/-- C3 witness: with exit status 15 from the zip command the warning is
logged, the download is still attempted, and the run exits 0. -/
theorem c3_nonzero_archive_status_witness :
    (missing_vars envOK = [] ∧
     setupOk envOK.ssh_public_key { worldOK with execExitStatus := 15 } = true ∧
     World.execTransportOk { worldOK with execExitStatus := 15 } = true ∧
     World.execExitStatus { worldOK with execExitStatus := 15 } ≠ 0) ∧
    (Event.logWarning ("Backup completed with warnings: " ++
        World.execStderr { worldOK with execExitStatus := 15 })
      ∈ (main envOK { worldOK with execExitStatus := 15 }).trace ∧
     Event.sftpGet (envOK.ssh_path.getD "" ++ "/" ++
        backup_filename (World.today { worldOK with execExitStatus := 15 }))
      (World.homeDir { worldOK with execExitStatus := 15 } ++ "/" ++
        backup_filename (World.today { worldOK with execExitStatus := 15 }))
      ∈ (main envOK { worldOK with execExitStatus := 15 }).trace ∧
     (World.downloadOk { worldOK with execExitStatus := 15 } = true →
      (main envOK { worldOK with execExitStatus := 15 }).exitCode = 0)) :=
  ⟨⟨by decide, by decide, by decide, by decide⟩,
   c3_nonzero_archive_status_not_fatal envOK { worldOK with execExitStatus := 15 }
     (by decide) (by decide) (by decide) (by decide)⟩

/-- C4: filename derivation is pure and deterministic — the archive filename
is `{date}.wp-content.zip` (in particular `2024-01-15.wp-content.zip` on
2024-01-15), and a run that reaches retrieval transfers exactly
`{SSH_PATH}/{filename}` to `{home}/{filename}`. -/
theorem c4_filename_derivation (e : Env) (w : World)
    (hm : missing_vars e = []) (hs : setupOk e.ssh_public_key w = true)
    (ht : w.execTransportOk = true) :
    backup_filename w.today = w.today ++ ".wp-content.zip" ∧
    backup_filename "2024-01-15" = "2024-01-15.wp-content.zip" ∧
    Event.sftpGet (e.ssh_path.getD "" ++ "/" ++ (w.today ++ ".wp-content.zip"))
      (w.homeDir ++ "/" ++ (w.today ++ ".wp-content.zip")) ∈ (main e w).trace := by
  have hset := setup_ok_trace (e.ssh_host.getD "") (e.ssh_user.getD "")
    e.ssh_public_key w hs
  refine ⟨rfl, rfl, ?_⟩
  by_cases hk : truthy e.ssh_public_key <;> by_cases hz : w.execExitStatus = 0 <;>
    by_cases hd : w.downloadOk <;> by_cases hcl : w.cleanupOk <;>
      simp [main, hm, create_backup, create_backup_body, hset, create_remote_backup,
            download_backup, cleanup_remote_backup, close_connections, backup_filename,
            ht, hz, hk, hd, hcl]

/-- C4 witness: the spec's example configuration on date 2024-01-15
downloads `/var/www/html/2024-01-15.wp-content.zip` to
`/home/user/2024-01-15.wp-content.zip`. -/
theorem c4_filename_derivation_witness :
    (missing_vars envOK = [] ∧ setupOk envOK.ssh_public_key worldOK = true ∧
     worldOK.execTransportOk = true) ∧
    (backup_filename worldOK.today = worldOK.today ++ ".wp-content.zip" ∧
     backup_filename "2024-01-15" = "2024-01-15.wp-content.zip" ∧
     Event.sftpGet (envOK.ssh_path.getD "" ++ "/" ++ (worldOK.today ++ ".wp-content.zip"))
       (worldOK.homeDir ++ "/" ++ (worldOK.today ++ ".wp-content.zip"))
       ∈ (main envOK worldOK).trace) :=
  ⟨⟨by decide, by decide, by decide⟩,
   c4_filename_derivation envOK worldOK (by decide) (by decide) (by decide)⟩

/-- C5: once validation passed (so a connection is attempted), every run —
normal or fatally terminated in any later step — ends with the teardown
sequence `close_connections`: SFTP channel closed if opened, then the SSH
session if opened, then the cleanup log line; a validation failure never
reaches any of the teardown events. -/
theorem c5_teardown_on_every_connected_path (e : Env) (w : World) :
    (missing_vars e = [] →
      ∃ pre st, (main e w).trace = pre ++ close_connections st ∧
        st.sshOpened = true) ∧
    (missing_vars e ≠ [] →
      Event.closeSftp ∉ (main e w).trace ∧ Event.closeSsh ∉ (main e w).trace ∧
      Event.logInfo "Connections closed" ∉ (main e w).trace) := by
  constructor
  · intro hm
    refine ⟨Event.logInfo "Environment variables validated successfully" ::
      (create_backup_body (e.ssh_host.getD "") (e.ssh_user.getD "") (e.ssh_path.getD "")
        e.ssh_public_key w).1,
      (create_backup_body (e.ssh_host.getD "") (e.ssh_user.getD "") (e.ssh_path.getD "")
        e.ssh_public_key w).2.2, ?_, ?_⟩
    · simp [main, hm, create_backup_trace]
    · rw [body_state]
      exact setup_sshOpened _ _ _ _
  · intro hm
    rcases hmv : missing_vars e with _ | ⟨a, l⟩
    · exact absurd hmv hm
    · simp [main, hmv]

/-- C5 witness: a fully successful run ends in the teardown sequence with
the session opened, while a validation failure produces none of the
teardown events. -/
theorem c5_teardown_witness :
    (∃ pre st, (main envOK worldOK).trace = pre ++ close_connections st ∧
       st.sshOpened = true) ∧
    (Event.closeSftp ∉ (main envMissing worldOK).trace ∧
     Event.closeSsh ∉ (main envMissing worldOK).trace ∧
     Event.logInfo "Connections closed" ∉ (main envMissing worldOK).trace) :=
  ⟨(c5_teardown_on_every_connected_path envOK worldOK).1 (by decide),
   (c5_teardown_on_every_connected_path envMissing worldOK).2 (by decide)⟩

/-- C6: in a run that reaches retrieval, a failed download logs the error,
exits 1, and the transfer is attempted exactly once (no retry); a
successful download reads the local file's size and logs it divided by
1024*1024 with two decimals. -/
theorem c6_download_fatal_or_size_logged (e : Env) (w : World)
    (hm : missing_vars e = []) (hs : setupOk e.ssh_public_key w = true)
    (ht : w.execTransportOk = true) :
    (w.downloadOk = false →
      Event.logError ("Failed to download backup: " ++ w.downloadErr)
        ∈ (main e w).trace ∧
      (main e w).exitCode = 1 ∧
      (main e w).trace.countP (fun ev => match ev with
        | Event.sftpGet _ _ => true
        | _ => false) = 1) ∧
    (w.downloadOk = true →
      Event.getFileSize (w.homeDir ++ "/" ++ backup_filename w.today)
        ∈ (main e w).trace ∧
      Event.logInfo ("Backup downloaded successfully. Size: " ++
        formatMB w.fileSize ++ " MB") ∈ (main e w).trace) := by
  have hset := setup_ok_trace (e.ssh_host.getD "") (e.ssh_user.getD "")
    e.ssh_public_key w hs
  by_cases hk : truthy e.ssh_public_key <;> by_cases hz : w.execExitStatus = 0 <;>
    by_cases hd : w.downloadOk <;> by_cases hcl : w.cleanupOk <;>
      simp [main, hm, create_backup, create_backup_body, hset, create_remote_backup,
            download_backup, cleanup_remote_backup, close_connections, backup_filename,
            ht, hz, hk, hd, hcl, List.countP_cons]

/-- C6 witness: a failing transfer logs the error, exits 1, with a single
get attempt; a successful 1 MiB transfer logs "1.00 MB". -/
theorem c6_download_witness :
    (missing_vars envOK = [] ∧
     setupOk envOK.ssh_public_key { worldOK with downloadOk := false } = true ∧
     World.execTransportOk { worldOK with downloadOk := false } = true) ∧
    ((World.downloadOk { worldOK with downloadOk := false } = false →
      Event.logError ("Failed to download backup: " ++
          World.downloadErr { worldOK with downloadOk := false })
        ∈ (main envOK { worldOK with downloadOk := false }).trace ∧
      (main envOK { worldOK with downloadOk := false }).exitCode = 1 ∧
      (main envOK { worldOK with downloadOk := false }).trace.countP
        (fun ev => match ev with
          | Event.sftpGet _ _ => true
          | _ => false) = 1) ∧
     (World.downloadOk { worldOK with downloadOk := false } = true →
      Event.getFileSize (World.homeDir { worldOK with downloadOk := false } ++ "/" ++
          backup_filename (World.today { worldOK with downloadOk := false }))
        ∈ (main envOK { worldOK with downloadOk := false }).trace ∧
      Event.logInfo ("Backup downloaded successfully. Size: " ++
          formatMB (World.fileSize { worldOK with downloadOk := false }) ++ " MB")
        ∈ (main envOK { worldOK with downloadOk := false }).trace)) :=
  ⟨⟨by decide, by decide, by decide⟩,
   c6_download_fatal_or_size_logged envOK { worldOK with downloadOk := false }
     (by decide) (by decide) (by decide)⟩

/-- C7: once the download has succeeded, a failing remote delete is only a
warning — the final success log line still appears and the exit status is
0. -/
theorem c7_cleanup_failure_only_warns (e : Env) (w : World)
    (hm : missing_vars e = []) (hs : setupOk e.ssh_public_key w = true)
    (ht : w.execTransportOk = true) (hd : w.downloadOk = true)
    (hc : w.cleanupOk = false) :
    Event.logWarning ("Failed to clean up remote backup: " ++ w.cleanupErr)
      ∈ (main e w).trace ∧
    Event.logInfo ("Backup process completed successfully! File saved to: " ++
      (w.homeDir ++ "/" ++ backup_filename w.today)) ∈ (main e w).trace ∧
    (main e w).exitCode = 0 := by
  have hset := setup_ok_trace (e.ssh_host.getD "") (e.ssh_user.getD "")
    e.ssh_public_key w hs
  by_cases hk : truthy e.ssh_public_key <;> by_cases hz : w.execExitStatus = 0 <;>
    simp [main, hm, create_backup, create_backup_body, hset, create_remote_backup,
          download_backup, cleanup_remote_backup, close_connections, backup_filename,
          ht, hz, hk, hd, hc]

/-- C7 witness: with a failing remote delete the warning is logged, the
success line still appears, and the run exits 0. -/
theorem c7_cleanup_failure_witness :
    (missing_vars envOK = [] ∧
     setupOk envOK.ssh_public_key { worldOK with cleanupOk := false } = true ∧
     World.execTransportOk { worldOK with cleanupOk := false } = true ∧
     World.downloadOk { worldOK with cleanupOk := false } = true ∧
     World.cleanupOk { worldOK with cleanupOk := false } = false) ∧
    (Event.logWarning ("Failed to clean up remote backup: " ++
        World.cleanupErr { worldOK with cleanupOk := false })
      ∈ (main envOK { worldOK with cleanupOk := false }).trace ∧
     Event.logInfo ("Backup process completed successfully! File saved to: " ++
        (World.homeDir { worldOK with cleanupOk := false } ++ "/" ++
          backup_filename (World.today { worldOK with cleanupOk := false })))
      ∈ (main envOK { worldOK with cleanupOk := false }).trace ∧
     (main envOK { worldOK with cleanupOk := false }).exitCode = 0) :=
  ⟨⟨by decide, by decide, by decide, by decide, by decide⟩,
   c7_cleanup_failure_only_warns envOK { worldOK with cleanupOk := false }
     (by decide) (by decide) (by decide) (by decide) (by decide)⟩

/-- C8: SSH_MYSQL_PATH is read but never used — two invocations differing
only in its value (present, absent, or different) produce identical traces
and exit codes. -/
theorem c8_mysql_path_noninterference (e : Env) (w : World) (m1 m2 : Option String) :
    main { e with ssh_mysql_path := m1 } w = main { e with ssh_mysql_path := m2 } w := by
  cases e
  rfl

/-- C9: with no transport-level exception, the remote-archiver step returns
the computed remote path `{SSH_PATH}/{filename}` whatever the zip exit
status was, its events are exactly the two logs around the single command
execution, and no other network operation (in particular no existence
check) happens in this step. -/
theorem c9_archiver_returns_path_unconditionally (p fn : String) (w : World)
    (h : w.execTransportOk = true) :
    (create_remote_backup p fn w).2 = .ok (p ++ "/" ++ fn) ∧
    (create_remote_backup p fn w).1 =
      [Event.logInfo "Creating backup on remote server...",
       Event.execCommand (zip_command p fn),
       if w.execExitStatus = 0 then
         Event.logInfo "Backup created successfully on remote server"
       else Event.logWarning ("Backup completed with warnings: " ++ w.execStderr)] ∧
    (∀ ev ∈ (create_remote_backup p fn w).1, ev.isNetwork = true →
      ev = Event.execCommand (zip_command p fn)) := by
  by_cases hz : w.execExitStatus = 0 <;>
    simp [create_remote_backup, h, hz, Event.isNetwork]

/-- C9 witness: with exit status 3 the step still returns
`/var/www/html/2024-01-15.wp-content.zip` and performs only the one command
execution. -/
theorem c9_archiver_returns_path_witness :
    World.execTransportOk { worldOK with execExitStatus := 3 } = true ∧
    ((create_remote_backup "/var/www/html" "2024-01-15.wp-content.zip"
        { worldOK with execExitStatus := 3 }).2 =
      .ok ("/var/www/html" ++ "/" ++ "2024-01-15.wp-content.zip") ∧
     (create_remote_backup "/var/www/html" "2024-01-15.wp-content.zip"
        { worldOK with execExitStatus := 3 }).1 =
      [Event.logInfo "Creating backup on remote server...",
       Event.execCommand (zip_command "/var/www/html" "2024-01-15.wp-content.zip"),
       if World.execExitStatus { worldOK with execExitStatus := 3 } = 0 then
         Event.logInfo "Backup created successfully on remote server"
       else Event.logWarning ("Backup completed with warnings: " ++
         World.execStderr { worldOK with execExitStatus := 3 })] ∧
     (∀ ev ∈ (create_remote_backup "/var/www/html" "2024-01-15.wp-content.zip"
        { worldOK with execExitStatus := 3 }).1, ev.isNetwork = true →
       ev = Event.execCommand
         (zip_command "/var/www/html" "2024-01-15.wp-content.zip"))) :=
  ⟨by decide,
   c9_archiver_returns_path_unconditionally "/var/www/html" "2024-01-15.wp-content.zip"
     { worldOK with execExitStatus := 3 } (by decide)⟩

/-- C10: every run exits either 0 (full success) or exactly 1 — every fatal
path calls `sys.exit(1)`, never another non-zero code. -/
theorem c10_fatal_exits_are_exactly_one (e : Env) (w : World) :
    (main e w).exitCode = 0 ∨ (main e w).exitCode = 1 := by
  rcases hmv : missing_vars e with _ | ⟨a, l⟩
  · by_cases hk : truthy e.ssh_public_key <;> by_cases hp : w.keyParseOk <;>
      by_cases hc : w.connectOk <;> by_cases hsf : w.sftpOpenOk <;>
        by_cases ht : w.execTransportOk <;> by_cases hz : w.execExitStatus = 0 <;>
          by_cases hd : w.downloadOk <;> by_cases hcl : w.cleanupOk <;>
            simp [main, hmv, create_backup, create_backup_body, setup_ssh_connection,
                  create_remote_backup, download_backup, cleanup_remote_backup,
                  close_connections, hk, hp, hc, hsf, ht, hz, hd, hcl]
  · simp [main, hmv]

end WPBackup
